import Mathlib

/-!
Shallow embedding of the `narcidicontrol` core services.

Times are modelled as integers (seconds since the epoch); `datetime.utcnow()`
becomes an explicit `now : Int` parameter.  `timedelta(days=n)` is `n * day`
and `timedelta(minutes=n)` is `n * 60`.  Database rows become Lean structures;
a service call becomes a pure function from the rows it reads to the rows it
writes, together with the alert requests and websocket events it emits.
Nullable columns are `Option`; Python truthiness on optional ids and strings
(`if maquina_id:`, `if heartbeat.versao_app:`) is modelled explicitly.
-/

namespace Narcidi

def day : Int := 86400

/-- `StatusLicenca` from `app/models/licenca.py`. -/
inductive StatusLicenca where
  | ativa
  | expirada
  | suspensa
  | cancelada
  | pendente
deriving DecidableEq, Repr

/-- `TipoLicenca` from `app/models/licenca.py`. -/
inductive TipoLicenca where
  | demonstracao
  | temporaria
  | perpetua
  | assinatura
deriving DecidableEq, Repr

/-- `CicloFaturamento` from `app/models/licenca.py`. -/
inductive CicloFaturamento where
  | mensal
  | trimestral
  | semestral
  | anual
  | bianual
deriving DecidableEq, Repr

/-- `StatusMaquina` from `app/models/maquina.py`. -/
inductive StatusMaquina where
  | online
  | offline
  | manutencao
  | bloqueada
deriving DecidableEq, Repr

/-- The `licencas` row (`app/models/licenca.py`), restricted to the columns
the services read or write. -/
structure Licenca where
  id : Nat
  clienteId : Nat
  maquinaId : Option Nat
  status : StatusLicenca
  tipo : TipoLicenca
  dataAtivacao : Option Int
  dataExpiracao : Option Int
  dataRenovacao : Option Int
  limiteUsos : Nat
  usosAtuais : Nat
deriving DecidableEq, Repr

/-- The `assinaturas` row (`app/models/licenca.py`). -/
structure Assinatura where
  id : Nat
  clienteId : Nat
  licencaId : Nat
  ciclo : CicloFaturamento
  dataInicio : Int
  dataFim : Int
  renovacaoAutomatica : Bool
  status : String
deriving DecidableEq, Repr

/-- The `bloqueios` row (`app/models/licenca.py`). -/
structure Bloqueio where
  clienteId : Nat
  maquinaId : Option Nat
  motivo : String
  tipo : String
  severidade : String
deriving DecidableEq, Repr

/-- The `clientes` row, restricted to the column the subscription cascade
writes (`cliente.data_expiracao`). -/
structure Cliente where
  id : Nat
  dataExpiracao : Option Int
deriving DecidableEq, Repr

/-- The `maquinas` row (`app/models/maquina.py`), restricted to the columns
heartbeat processing and the offline sweep touch. -/
structure Maquina where
  id : Nat
  clienteId : Nat
  identificadorUnico : String
  status : StatusMaquina
  ultimaConexao : Int
  tempoAtividade : Nat
  versaoApp : Option String
deriving DecidableEq, Repr

/-- One metrics reading inside a heartbeat (`MaquinaMetricaBase` in
`app/schemas/maquina.py`); percentages are exact rationals. -/
structure Metricas where
  cpuUso : Option ℚ
  memoriaUso : Option ℚ
  discoUso : Option ℚ
  temperatura : Option ℚ
  redeUpload : Option ℚ
  redeDownload : Option ℚ
  latencia : Option ℚ
  processosAtivos : Option Nat
deriving DecidableEq, Repr

/-- The `maquinas_metricas` row appended by heartbeat ingestion. -/
structure MaquinaMetrica where
  maquinaId : Nat
  metricas : Metricas
deriving DecidableEq, Repr

/-- `HeartbeatRequest` from `app/schemas/maquina.py`. -/
structure HeartbeatRequest where
  identificadorUnico : String
  status : StatusMaquina
  metricas : Option Metricas
  versaoApp : Option String
deriving DecidableEq, Repr

/-- The alert requests the services hand to `app/events/alertas.py`. -/
inductive Alerta where
  | licencaExpirada (licencaId : Nat)
  | pagamentoPendente (assinaturaId : Nat)
  | maquinaOffline (maquinaId : Nat)
  | maquinaSuspeita (maquinaId : Nat) (motivo : String)
deriving DecidableEq, Repr

/-- The websocket events emitted through `MaquinaConnectionManager`. -/
inductive WsEvent where
  | heartbeat (maquinaId : Nat)
  | bloqueio (maquinaId : Nat) (motivo : String)
  | desbloqueio (maquinaId : Nat)
deriving DecidableEq, Repr

/-- Python truthiness of an optional integer id (`if maquina_id:`):
`None` and `0` are falsy. -/
def truthyId : Option Nat → Bool
  | none => false
  | some m => m ≠ 0

/-- Python truthiness of an optional string (`if heartbeat.versao_app:`):
`None` and the empty string are falsy. -/
def truthyStr : Option String → Bool
  | none => false
  | some s => s ≠ ""

/-- The expiry test both `ativar_licenca` and `verificar_licenca` run:
`licenca.data_expiracao and licenca.data_expiracao < datetime.utcnow()`
(a datetime object is always truthy, so only `None` short-circuits). -/
def licencaVencida (now : Int) (l : Licenca) : Bool :=
  match l.dataExpiracao with
  | none => false
  | some e => e < now

/-- The four return sites of `LicencaService.ativar_licenca` once the license
row has been found (the not-found query miss is handled by the caller). -/
inductive AtivarResultado where
  | jaAtiva
  | expirou
  | limiteExcedido
  | ativada
deriving DecidableEq, Repr

/-- The boolean the Python function actually returns at each return site. -/
def AtivarResultado.toBool : AtivarResultado → Bool
  | .jaAtiva => true
  | .expirou => false
  | .limiteExcedido => false
  | .ativada => true

/-- `LicencaService.ativar_licenca` (`app/services/licenca_service.py`,
lines 67-100), on a found license: result, updated row, requested alerts. -/
def ativar_licenca (now : Int) (l : Licenca) (maquinaId : Option Nat) :
    AtivarResultado × Licenca × List Alerta :=
  if l.status = StatusLicenca.ativa then
    (.jaAtiva, l, [])
  else if licencaVencida now l then
    (.expirou, { l with status := StatusLicenca.expirada },
      [Alerta.licencaExpirada l.id])
  else if 0 < l.limiteUsos ∧ l.limiteUsos ≤ l.usosAtuais then
    (.limiteExcedido, l, [])
  else
    (.ativada,
      { l with
          status := StatusLicenca.ativa
          dataAtivacao := some now
          usosAtuais := l.usosAtuais + 1
          maquinaId := if truthyId maquinaId then maquinaId else l.maquinaId },
      [])

/-- `LicencaService.verificar_licenca` (lines 102-115), on a found license:
lazily marks expiry and requests an alert, then returns the row. -/
def verificar_licenca (now : Int) (l : Licenca) : Licenca × List Alerta :=
  if licencaVencida now l then
    ({ l with status := StatusLicenca.expirada }, [Alerta.licencaExpirada l.id])
  else
    (l, [])

/-- `LicencaService.renovar_licenca` (lines 117-135), on a found license:
`nova_data = (licenca.data_expiracao or datetime.utcnow()) + timedelta(days=30*meses)`. -/
def renovar_licenca (now : Int) (l : Licenca) (meses : Nat) : Licenca :=
  let novaData := (match l.dataExpiracao with
    | some e => e
    | none => now) + 30 * meses * day
  { l with
      dataExpiracao := some novaData
      dataRenovacao := some now
      status := StatusLicenca.ativa }

/-- `LicencaService.bloquear_licenca` (lines 137-159), on a found license:
suspends the license and records a `Bloqueio` row. -/
def bloquear_licenca (l : Licenca) (motivo : String) : Licenca × List Bloqueio :=
  ({ l with status := StatusLicenca.suspensa },
   [{ clienteId := l.clienteId
      maquinaId := l.maquinaId
      motivo := motivo
      tipo := "licenca"
      severidade := "alta" }])

/-- Selection predicate of `LicencaService.get_licencas_expirando`
(lines 161-174): Active, with `data_expiracao` in `(now, now + dias*day]`
(a NULL `data_expiracao` fails both SQL comparisons). -/
def licencaExpirando (now : Int) (dias : Nat) (l : Licenca) : Bool :=
  decide (l.status = StatusLicenca.ativa) &&
    match l.dataExpiracao with
    | none => false
    | some e => decide (e ≤ now + dias * day) && decide (now < e)

/-- `LicencaService.get_licencas_expirando`: the query result, in table order. -/
def get_licencas_expirando (now : Int) (dias : Nat) (ls : List Licenca) :
    List Licenca :=
  ls.filter (licencaExpirando now dias)

/-- `(licenca.data_expiracao - datetime.utcnow()).days` as computed by
`monitorar_licencas_expirando`; only evaluated on selected licenses, whose
`data_expiracao` is a non-NULL future instant. -/
def dias_restantes (now : Int) (l : Licenca) : Nat :=
  match l.dataExpiracao with
  | none => 0
  | some e => (e - now).toNat / 86400

/-- `MonitoramentoService.monitorar_licencas_expirando`
(`app/tasks/monitoramento.py`, lines 34-59): runs the 7-day expiry query and
requests an alert only for matches with at most 3 days remaining. -/
def monitorar_licencas_expirando (now : Int) (ls : List Licenca) :
    List Licenca × List Alerta :=
  let selecionadas := get_licencas_expirando now 7 ls
  (selecionadas,
   (selecionadas.filter (fun l => dias_restantes now l ≤ 3)).map
     (fun l => Alerta.licencaExpirada l.id))

/-- Days added per billing cycle, as hard-coded in both
`AssinaturaService.criar_assinatura` and `renovar_assinatura`. -/
def cicloDias : CicloFaturamento → Nat
  | .mensal => 30
  | .trimestral => 90
  | .semestral => 180
  | .anual => 365
  | .bianual => 730

/-- Selection predicate of `AssinaturaService.verificar_renovacoes`
(`app/services/licenca_service.py`, lines 233-250): Active, `data_fim` in
`(now, now + 3*day]`, auto-renew on. -/
def assinaturaRenovavel (now : Int) (a : Assinatura) : Bool :=
  decide (a.status = "ativa") && decide (a.dataFim ≤ now + 3 * day) &&
    decide (now < a.dataFim) && a.renovacaoAutomatica

/-- `AssinaturaService.verificar_renovacoes`: returns the matches and requests
one payment-pending alert per match. -/
def verificar_renovacoes (now : Int) (assinaturas : List Assinatura) :
    List Assinatura × List Alerta :=
  let selecionadas := assinaturas.filter (assinaturaRenovavel now)
  (selecionadas, selecionadas.map (fun a => Alerta.pagamentoPendente a.id))

/-- `AssinaturaService.renovar_assinatura` (lines 252-282), on a found
subscription and the result of the `Cliente` lookup: advances `data_fim` by
one billing cycle and, when the client row is found, cascades the client's
cached `data_expiracao` to the new end. -/
def renovar_assinatura (a : Assinatura) (cliente : Option Cliente) :
    Assinatura × Option Cliente :=
  let novaDataFim := a.dataFim + cicloDias a.ciclo * day
  ({ a with dataFim := novaDataFim },
   match cliente with
   | none => none
   | some c => some { c with dataExpiracao := some novaDataFim })

/-- `MonitoramentoService.monitorar_renovacoes_assinaturas`
(`app/tasks/monitoramento.py`, lines 61-85): runs `verificar_renovacoes`,
then for each match with auto-renew on (every match) calls
`renovar_assinatura`; `clientes` models the per-id client lookup. -/
def monitorar_renovacoes_assinaturas (now : Int) (assinaturas : List Assinatura)
    (clientes : Nat → Option Cliente) :
    List Alerta × List (Assinatura × Option Cliente) :=
  let r := verificar_renovacoes now assinaturas
  (r.2,
   r.1.map (fun a =>
     if a.renovacaoAutomatica then renovar_assinatura a (clientes a.clienteId)
     else (a, clientes a.clienteId)))

/-- `MaquinaService.processar_heartbeat` (`app/services/maquina_service.py`,
lines 53-103), on the found machine: updated row, appended metric samples,
requested alerts.  The status is overwritten with the reported status
unconditionally; the +300 s uptime credit applies on an Offline→Online edge. -/
def processar_heartbeat (now : Int) (m : Maquina) (hb : HeartbeatRequest) :
    Maquina × List MaquinaMetrica × List Alerta :=
  let m1 := { m with
    status := hb.status
    ultimaConexao := now
    versaoApp := if truthyStr hb.versaoApp then hb.versaoApp else m.versaoApp }
  let m2 := if m.status = StatusMaquina.offline ∧ hb.status = StatusMaquina.online
    then { m1 with tempoAtividade := m1.tempoAtividade + 300 }
    else m1
  match hb.metricas with
  | none => (m2, [], [])
  | some met =>
      (m2, [{ maquinaId := m.id, metricas := met }],
       (match met.cpuUso with
        | some c => if c ≠ 0 ∧ 90 < c then [Alerta.maquinaSuspeita m.id "Uso de CPU muito alto"] else []
        | none => []) ++
       (match met.memoriaUso with
        | some v => if v ≠ 0 ∧ 90 < v then [Alerta.maquinaSuspeita m.id "Uso de memória muito alto"] else []
        | none => []))

/-- Selection predicate of `MaquinaService.verificar_maquinas_offline`
(lines 105-124): any status other than Offline, with `ultima_conexao` older
than `now - minutos_offline` minutes. -/
def maquinaStale (now : Int) (minutos : Nat) (m : Maquina) : Bool :=
  decide (m.status ≠ StatusMaquina.offline) &&
    decide (m.ultimaConexao < now - minutos * 60)

/-- `MaquinaService.verificar_maquinas_offline`: transitions every selected
machine to Offline, requests one offline alert per selected machine, and
returns (selected machines after mutation, full table after mutation, alerts). -/
def verificar_maquinas_offline (now : Int) (minutos : Nat)
    (maquinas : List Maquina) : List Maquina × List Maquina × List Alerta :=
  let selecionadas := maquinas.filter (maquinaStale now minutos)
  (selecionadas.map (fun m => { m with status := StatusMaquina.offline }),
   maquinas.map (fun m =>
     if maquinaStale now minutos m then { m with status := StatusMaquina.offline }
     else m),
   selecionadas.map (fun m => Alerta.maquinaOffline m.id))

/-- `MaquinaService.bloquear_maquina` (lines 126-137), on a found machine:
sets the status to Blocked; note that it writes no `Bloqueio` row. -/
def bloquear_maquina (m : Maquina) : Maquina :=
  { m with status := StatusMaquina.bloqueada }

/-- `MaquinaService.desbloquear_maquina` (lines 139-150), on a found machine. -/
def desbloquear_maquina (m : Maquina) : Maquina :=
  { m with status := StatusMaquina.online }

/-- The `/maquinas/{id}/bloquear` route (`app/api/maquina_api.py`,
lines 84-100): service call, then websocket broadcast of the block.
The `Bloqueio` rows written anywhere on this path are returned (there are
none: only `bloquear_licenca` writes one). -/
def bloquear_maquina_endpoint (m : Maquina) (motivo : String) :
    Maquina × List Bloqueio × List WsEvent :=
  (bloquear_maquina m, [], [WsEvent.bloqueio m.id motivo])

/-- One pass of the send loop in
`MaquinaConnectionManager.broadcast_heartbeat` (`app/events/maquina_events.py`,
lines 49-70): subscribers are websocket handles, `falha w = true` means
`send_json` raised for `w`.  Returns (delivered subscribers, subscribers
collected into `disconnected`). -/
def broadcastLoop (subs : List Nat) (falha : Nat → Bool) : List Nat × List Nat :=
  match subs with
  | [] => ([], [])
  | w :: ws =>
      let r := broadcastLoop ws falha
      if falha w then (r.1, w :: r.2) else (w :: r.1, r.2)

/-- `MaquinaConnectionManager.broadcast_heartbeat` for a device with
subscriber set `subs`: attempts the send to every subscriber, then discards
each failed subscriber from the device's subscription set.  Returns
(delivered subscribers, remaining subscription set). -/
def broadcast_heartbeat (subs : List Nat) (falha : Nat → Bool) :
    List Nat × List Nat :=
  let r := broadcastLoop subs falha
  (r.1, subs.filter (fun w => ¬ w ∈ r.2))

/-- A default license row used to build concrete test rows. -/
def licBase : Licenca :=
  { id := 1, clienteId := 1, maquinaId := none, status := StatusLicenca.pendente,
    tipo := TipoLicenca.perpetua, dataAtivacao := none, dataExpiracao := none,
    dataRenovacao := none, limiteUsos := 0, usosAtuais := 0 }

/-- A default machine row used to build concrete test rows. -/
def maqBase : Maquina :=
  { id := 1, clienteId := 1, identificadorUnico := "maq-001",
    status := StatusMaquina.online, ultimaConexao := 0, tempoAtividade := 0,
    versaoApp := none }

/-- A default subscription row used to build concrete test rows. -/
def assinBase : Assinatura :=
  { id := 1, clienteId := 1, licencaId := 1, ciclo := CicloFaturamento.mensal,
    dataInicio := 0, dataFim := 2 * day, renovacaoAutomatica := true,
    status := "ativa" }

/-! Helper lemmas shared by the claim theorems. -/

/-- A call to `ativar_licenca` that reports `ativada` took the final branch,
so the updated row is the fully activated one. -/
theorem ativar_licenca_ativada_eq (now : Int) (l : Licenca) (mid : Option Nat)
    (h0 : (ativar_licenca now l mid).1 = AtivarResultado.ativada) :
    ativar_licenca now l mid =
      (AtivarResultado.ativada,
        { l with
            status := StatusLicenca.ativa
            dataAtivacao := some now
            usosAtuais := l.usosAtuais + 1
            maquinaId := if truthyId mid then mid else l.maquinaId },
        []) := by
  unfold ativar_licenca at h0 ⊢
  split_ifs at h0 ⊢ <;> simp_all

/-- The delivered side of the send loop keeps exactly the subscribers whose
send did not raise. -/
theorem broadcastLoop_fst (subs : List Nat) (falha : Nat → Bool) :
    (broadcastLoop subs falha).1 = subs.filter (fun w => !falha w) := by
  induction subs with
  | nil => rfl
  | cons w ws ih =>
      unfold broadcastLoop
      cases h : falha w <;> simp [h, ih]

/-- The `disconnected` side of the send loop collects exactly the subscribers
whose send raised. -/
theorem broadcastLoop_snd (subs : List Nat) (falha : Nat → Bool) :
    (broadcastLoop subs falha).2 = subs.filter falha := by
  induction subs with
  | nil => rfl
  | cons w ws ih =>
      unfold broadcastLoop
      cases h : falha w <;> simp [h, ih]

/-- C5: on a license that is not Active, not expired, and whose usage quota
is exhausted (`0 < limite_usos ≤ usos_atuais`), `ativar_licenca` returns at
the quota return site (the `False` the route reports) and leaves every field
of the row unchanged. -/
theorem C5_quota_sem_mudanca (now : Int) (l : Licenca) (mid : Option Nat)
    (hact : l.status ≠ StatusLicenca.ativa)
    (hexp : licencaVencida now l = false)
    (hpos : 0 < l.limiteUsos) (hquota : l.limiteUsos ≤ l.usosAtuais) :
    ativar_licenca now l mid = (AtivarResultado.limiteExcedido, l, []) ∧
    AtivarResultado.toBool AtivarResultado.limiteExcedido = false := by
  refine ⟨?_, rfl⟩
  unfold ativar_licenca
  rw [if_neg hact, if_neg (by simp [hexp]), if_pos ⟨hpos, hquota⟩]

/-- C5 witness: the spec's own instance, `usage_limit = 3`, `usage_count = 3`. -/
theorem C5_quota_sem_mudanca_witness :
    ativar_licenca 0 { licBase with limiteUsos := 3, usosAtuais := 3 } none
      = (AtivarResultado.limiteExcedido,
         { licBase with limiteUsos := 3, usosAtuais := 3 }, []) :=
  (C5_quota_sem_mudanca 0 { licBase with limiteUsos := 3, usosAtuais := 3 }
    none (by decide) (by decide) (by decide) (by decide)).1

/-- C6: activating an already-Active license is a successful no-op (the row
is returned unchanged, no alert, the route reports `True`), a successful
activation increments `usos_atuais` exactly once, and re-running `ativar`
immediately after a successful activation changes no field of the row. -/
theorem C6_ativar_idempotente (now now2 : Int) (l l0 : Licenca)
    (mid mid2 : Option Nat)
    (h : l.status = StatusLicenca.ativa)
    (h0 : (ativar_licenca now l0 mid).1 = AtivarResultado.ativada) :
    ativar_licenca now2 l mid2 = (AtivarResultado.jaAtiva, l, []) ∧
    AtivarResultado.toBool AtivarResultado.jaAtiva = true ∧
    (ativar_licenca now l0 mid).2.1.usosAtuais = l0.usosAtuais + 1 ∧
    ativar_licenca now2 (ativar_licenca now l0 mid).2.1 mid2 =
      (AtivarResultado.jaAtiva, (ativar_licenca now l0 mid).2.1, []) := by
  have hfirst : ∀ l1 : Licenca, l1.status = StatusLicenca.ativa →
      ativar_licenca now2 l1 mid2 = (AtivarResultado.jaAtiva, l1, []) := by
    intro l1 h1
    unfold ativar_licenca
    rw [if_pos h1]
  refine ⟨hfirst l h, rfl, ?_, ?_⟩
  · rw [ativar_licenca_ativada_eq now l0 mid h0]
  · exact hfirst _ (by rw [ativar_licenca_ativada_eq now l0 mid h0])

/-- C6 witness: a fresh Pending license activates once, and the second call
is a no-op on the activated row. -/
theorem C6_ativar_idempotente_witness :
    (ativar_licenca 0 licBase none).2.1.usosAtuais = licBase.usosAtuais + 1 ∧
    ativar_licenca 0 (ativar_licenca 0 licBase none).2.1 none =
      (AtivarResultado.jaAtiva, (ativar_licenca 0 licBase none).2.1, []) :=
  ⟨(C6_ativar_idempotente 0 0 { licBase with status := StatusLicenca.ativa }
      licBase none none rfl (by decide)).2.2.1,
   (C6_ativar_idempotente 0 0 { licBase with status := StatusLicenca.ativa }
      licBase none none rfl (by decide)).2.2.2⟩

/-- C2 counterexample: a license whose `data_expiracao` is the epoch is
renewed at `now = 100` days with a one-month extension; the code yields
`30` days (old expiry + extension), not `max(expiry, now) + extension =
130` days.  The claimed formula fails whenever the old expiry is in the
past. -/
theorem C2_counterexample :
    (renovar_licenca (100 * day) { licBase with dataExpiracao := some 0 }
        1).dataExpiracao = some (30 * day) ∧
    (30 * day : Int) ≠ max 0 (100 * day) + 30 * day := by
  exact ⟨by decide, by decide⟩

/-- C2 as amended: `renovar_licenca` sets the new expiry to
`(old expiry, or now when the old expiry is NULL) + 30*meses` days — `now`
is used only as a fallback for NULL, not as a lower bound — sets the status
to Active, stamps `data_renovacao = now`, and never shortens the term
relative to the old expiry. -/
theorem C2_renovar_amended (now : Int) (l : Licenca) (meses : Nat) :
    (renovar_licenca now l meses).dataExpiracao
        = some (l.dataExpiracao.getD now + 30 * meses * day) ∧
    (renovar_licenca now l meses).status = StatusLicenca.ativa ∧
    (renovar_licenca now l meses).dataRenovacao = some now ∧
    ∀ e ne, l.dataExpiracao = some e →
      (renovar_licenca now l meses).dataExpiracao = some ne → e ≤ ne := by
  refine ⟨?_, rfl, rfl, ?_⟩
  · cases h : l.dataExpiracao <;> simp [renovar_licenca, h]
  · intro e ne he hne
    unfold renovar_licenca at hne
    rw [he] at hne
    simp only [Option.some.injEq] at hne
    have hd : (0 : Int) ≤ 30 * meses * day := by
      unfold day
      positivity
    linarith

/-- C2 amended witness: renewing a license expired at the epoch by two
months at `now = 5` days yields expiry `60` days, which does not shorten
the term. -/
theorem C2_renovar_amended_witness :
    (renovar_licenca (5 * day) { licBase with dataExpiracao := some 0 }
        2).dataExpiracao = some (60 * day) ∧ (0 : Int) ≤ 60 * day :=
  ⟨by decide,
   (C2_renovar_amended (5 * day) { licBase with dataExpiracao := some 0 }
      2).2.2.2 0 (60 * day) rfl (by decide)⟩

/-- C10: on a license whose `data_expiracao` is non-NULL and in the past,
`verificar_licenca` forces the status to Expired and requests an expiry
alert whatever the current status is (the row's status is unconstrained
here, so this covers Expired, Suspended and Cancelled starts), and a repeat
call on the returned row requests the alert again. -/
theorem C10_verificar_sempre_expira (now e : Int) (l : Licenca)
    (h1 : l.dataExpiracao = some e) (h2 : e < now) :
    (verificar_licenca now l).1.status = StatusLicenca.expirada ∧
    (verificar_licenca now l).2 = [Alerta.licencaExpirada l.id] ∧
    (verificar_licenca now (verificar_licenca now l).1).2
        = [Alerta.licencaExpirada l.id] := by
  have hv : licencaVencida now l = true := by
    unfold licencaVencida
    rw [h1]
    exact decide_eq_true h2
  have hstep : verificar_licenca now l =
      ({ l with status := StatusLicenca.expirada },
       [Alerta.licencaExpirada l.id]) := by
    unfold verificar_licenca
    rw [if_pos hv]
  have hv2 : licencaVencida now { l with status := StatusLicenca.expirada }
      = true := by
    unfold licencaVencida
    simp only [h1]
    exact decide_eq_true h2
  refine ⟨by rw [hstep], by rw [hstep], ?_⟩
  rw [hstep]
  unfold verificar_licenca
  rw [if_pos hv2]

/-- C10 witness: a Cancelled license with a past expiry is moved to Expired
by `verificar_licenca`, which also requests the alert. -/
theorem C10_verificar_sempre_expira_witness :
    (verificar_licenca 1
        { licBase with status := StatusLicenca.cancelada, dataExpiracao := some 0
        }).1.status = StatusLicenca.expirada :=
  (C10_verificar_sempre_expira 1 0
    { licBase with status := StatusLicenca.cancelada, dataExpiracao := some 0 }
    rfl (by decide)).1

/-- Unfolding of the license expiry-sweep selection predicate. -/
theorem licencaExpirando_eq_true (now : Int) (dias : Nat) (l : Licenca) :
    licencaExpirando now dias l = true ↔
      l.status = StatusLicenca.ativa ∧
        ∃ e, l.dataExpiracao = some e ∧ e ≤ now + dias * day ∧ now < e := by
  unfold licencaExpirando
  cases h : l.dataExpiracao <;> simp [h]

/-- Unfolding of the subscription renewal-sweep selection predicate. -/
theorem assinaturaRenovavel_eq_true (now : Int) (a : Assinatura) :
    assinaturaRenovavel now a = true ↔
      a.status = "ativa" ∧ a.renovacaoAutomatica = true ∧
        now < a.dataFim ∧ a.dataFim ≤ now + 3 * day := by
  unfold assinaturaRenovavel
  simp only [Bool.and_eq_true, decide_eq_true_eq]
  tauto

/-- Heartbeat processing always overwrites the status with the reported one. -/
theorem processar_heartbeat_status (now : Int) (m : Maquina)
    (hb : HeartbeatRequest) :
    (processar_heartbeat now m hb).1.status = hb.status := by
  unfold processar_heartbeat
  cases hb.metricas <;> split_ifs <;> rfl

/-- After one pass of the offline sweep, no machine still satisfies the
sweep's selection predicate (it is Offline if it was selected, and was
already unselected otherwise). -/
theorem maquinaStale_after_sweep (now : Int) (minutos : Nat) (m : Maquina) :
    maquinaStale now minutos
      (if maquinaStale now minutos m
        then { m with status := StatusMaquina.offline } else m) = false := by
  by_cases h : maquinaStale now minutos m = true
  · rw [if_pos h]
    unfold maquinaStale
    simp
  · rw [if_neg h]
    simpa using h

/-- C3 counterexample: at `now = 0`, an Active license expiring in 5 days is
selected by the 7-day expiry sweep, yet the sweep requests no alert for it
(the task only alerts when at most 3 days remain), refuting the claim that
an alert is requested for every selected license. -/
theorem C3_counterexample :
    (monitorar_licencas_expirando 0
        [{ licBase with
            status := StatusLicenca.ativa
            dataExpiracao := some (5 * day) }]).1
      = [{ licBase with
            status := StatusLicenca.ativa
            dataExpiracao := some (5 * day) }] ∧
    (monitorar_licencas_expirando 0
        [{ licBase with
            status := StatusLicenca.ativa
            dataExpiracao := some (5 * day) }]).2 = [] := by
  exact ⟨by decide, by decide⟩

/-- C3 as amended: the expiry sweep selects exactly the Active licenses with
`data_expiracao` in `(now, now + 7 days]`, requests an expiring alert only
for the selected licenses with at most 3 whole days remaining, and returns
the selected rows unchanged from the store (no status transition). -/
theorem C3_sweep_amended (now : Int) (ls : List Licenca) :
    (∀ l, l ∈ (monitorar_licencas_expirando now ls).1 ↔
        l ∈ ls ∧ l.status = StatusLicenca.ativa ∧
          ∃ e, l.dataExpiracao = some e ∧ e ≤ now + 7 * day ∧ now < e) ∧
    (monitorar_licencas_expirando now ls).2 =
      ((monitorar_licencas_expirando now ls).1.filter
          (fun l => dias_restantes now l ≤ 3)).map
        (fun l => Alerta.licencaExpirada l.id) ∧
    (∀ l, l ∈ (monitorar_licencas_expirando now ls).1 → l ∈ ls) := by
  have hsel : (monitorar_licencas_expirando now ls).1
      = ls.filter (licencaExpirando now 7) := rfl
  refine ⟨?_, rfl, ?_⟩
  · intro l
    rw [hsel, List.mem_filter, licencaExpirando_eq_true]
    norm_cast
  · intro l hl
    rw [hsel] at hl
    exact (List.mem_filter.mp hl).1

/-- C3 amended witness: an Active license expiring in exactly one day is
selected by the sweep. -/
theorem C3_sweep_amended_witness :
    { licBase with status := StatusLicenca.ativa, dataExpiracao := some day } ∈
      (monitorar_licencas_expirando 0
        [{ licBase with status := StatusLicenca.ativa, dataExpiracao := some day
         }]).1 :=
  ((C3_sweep_amended 0
      [{ licBase with status := StatusLicenca.ativa, dataExpiracao := some day
       }]).1 _).mpr
    ⟨by decide, by decide, ⟨day, rfl, by decide, by decide⟩⟩

/-- C4 counterexample: blocking a device through the block route sets its
status to Blocked but writes no `Bloqueio` row, refuting the claim that a
BlockRecord is created whenever a device is blocked. -/
theorem C4_counterexample :
    (bloquear_maquina_endpoint maqBase "teste").1.status
        = StatusMaquina.bloqueada ∧
    (bloquear_maquina_endpoint maqBase "teste").2.1 = ([] : List Bloqueio) :=
  ⟨rfl, rfl⟩

/-- C4 as amended: the device block route sets the status to Blocked and
broadcasts a block event but creates no BlockRecord; a BlockRecord is
created when a license is suspended (`bloquear_licenca`). -/
theorem C4_bloquear_amended (m : Maquina) (motivo : String) (l : Licenca)
    (motivo2 : String) :
    bloquear_maquina_endpoint m motivo =
      ({ m with status := StatusMaquina.bloqueada }, [],
        [WsEvent.bloqueio m.id motivo]) ∧
    (bloquear_licenca l motivo2).1.status = StatusLicenca.suspensa ∧
    (bloquear_licenca l motivo2).2 =
      [{ clienteId := l.clienteId, maquinaId := l.maquinaId, motivo := motivo2,
         tipo := "licenca", severidade := "alta" }] :=
  ⟨rfl, rfl, rfl⟩

/-- C1 counterexample: a Blocked device that reports a heartbeat with status
Online ends up Online — the heartbeat path changes the status of a Blocked
device, refuting the claimed invariant. -/
theorem C1_counterexample :
    (processar_heartbeat 0 { maqBase with status := StatusMaquina.bloqueada }
        { identificadorUnico := "maq-001"
          status := StatusMaquina.online
          metricas := none
          versaoApp := none }).1.status
      = StatusMaquina.online ∧
    StatusMaquina.online ≠ StatusMaquina.bloqueada :=
  ⟨by decide, by decide⟩

/-- C1 as amended: heartbeat processing overwrites the device status with the
reported status regardless of the current status (Blocked included), and the
offline sweep selects every device whose status is not Offline — Blocked and
Maintenance included — whose `ultima_conexao` is stale, transitions it to
Offline and requests an offline alert for it. -/
theorem C1_bloqueio_amended (now : Int) (m : Maquina) (hb : HeartbeatRequest)
    (minutos : Nat) (ms : List Maquina) (m2 : Maquina) (hmem : m2 ∈ ms)
    (hst : m2.status ≠ StatusMaquina.offline)
    (hstale : m2.ultimaConexao < now - minutos * 60) :
    (processar_heartbeat now m hb).1.status = hb.status ∧
    { m2 with status := StatusMaquina.offline } ∈
      (verificar_maquinas_offline now minutos ms).1 ∧
    Alerta.maquinaOffline m2.id ∈
      (verificar_maquinas_offline now minutos ms).2.2 := by
  have hp : maquinaStale now minutos m2 = true := by
    unfold maquinaStale
    simp [hst, hstale]
  have hmemf : m2 ∈ ms.filter (maquinaStale now minutos) :=
    List.mem_filter.mpr ⟨hmem, hp⟩
  refine ⟨processar_heartbeat_status now m hb, ?_, ?_⟩
  · exact List.mem_map_of_mem _ hmemf
  · exact List.mem_map_of_mem _ hmemf

/-- C1 amended witness: a Blocked device stale for 10 minutes is transitioned
to Offline by the 5-minute sweep. -/
theorem C1_bloqueio_amended_witness :
    { { maqBase with status := StatusMaquina.bloqueada } with
        status := StatusMaquina.offline } ∈
      (verificar_maquinas_offline 600 5
        [{ maqBase with status := StatusMaquina.bloqueada }]).1 :=
  (C1_bloqueio_amended 600 maqBase
      { identificadorUnico := "maq-001"
        status := StatusMaquina.online
        metricas := none
        versaoApp := none }
      5 [{ maqBase with status := StatusMaquina.bloqueada }]
      { maqBase with status := StatusMaquina.bloqueada }
      (by decide) (by decide) (by decide)).2.1

/-- C7 counterexample: with one Online device last seen at time 0 and a
5-minute threshold, a sweep at `t = 60 s` transitions nothing, and a second
sweep at the later time `t = 600 s` with no intervening heartbeat returns a
non-empty transitioned set — the claim admits a later current time for the
second call, and fails there. -/
theorem C7_counterexample :
    (verificar_maquinas_offline 600 5
        (verificar_maquinas_offline 60 5 [maqBase]).2.1).1 ≠ [] := by
  decide

/-- C7 as amended: re-running the offline sweep on the swept table at the
same current time and threshold transitions nothing and requests no alert:
every previously selected device is now Offline and Offline devices are
never selected. -/
theorem C7_sweep_idempotente (now : Int) (minutos : Nat) (ms : List Maquina) :
    (verificar_maquinas_offline now minutos
        (verificar_maquinas_offline now minutos ms).2.1).1 = [] ∧
    (verificar_maquinas_offline now minutos
        (verificar_maquinas_offline now minutos ms).2.1).2.2 = [] := by
  set X := (verificar_maquinas_offline now minutos ms).2.1 with hX
  have hfil : X.filter (maquinaStale now minutos) = [] := by
    rw [hX]
    unfold verificar_maquinas_offline
    rw [List.filter_eq_nil_iff]
    intro a ha
    obtain ⟨m, hm, rfl⟩ := List.mem_map.mp ha
    simp [maquinaStale_after_sweep]
  constructor <;>
    · unfold verificar_maquinas_offline
      rw [hfil]
      rfl

/-- C8: in a broadcast, a subscriber whose send does not raise receives the
event whatever the other subscribers do (isolation), every subscriber whose
send raises is removed from the device's subscription set, and the
non-failing subscriber is kept subscribed rather than removed. -/
theorem C8_broadcast_isolamento (subs : List Nat) (falha : Nat → Bool)
    (w v : Nat) (hw : w ∈ subs) (hok : falha w = false)
    (hv : falha v = true) :
    w ∈ (broadcast_heartbeat subs falha).1 ∧
    v ∉ (broadcast_heartbeat subs falha).2 ∧
    w ∈ (broadcast_heartbeat subs falha).2 := by
  have heq : broadcast_heartbeat subs falha
      = (subs.filter (fun w => !falha w),
         subs.filter (fun w => decide (w ∉ subs.filter falha))) := by
    show ((broadcastLoop subs falha).1,
        subs.filter fun w => decide (w ∉ (broadcastLoop subs falha).2)) = _
    rw [broadcastLoop_fst, broadcastLoop_snd]
  rw [heq]
  refine ⟨List.mem_filter.mpr ⟨hw, by simp [hok]⟩, ?_, ?_⟩
  · intro hmem
    obtain ⟨h1, h2⟩ := List.mem_filter.mp hmem
    simp only [decide_eq_true_eq] at h2
    exact h2 (List.mem_filter.mpr ⟨h1, hv⟩)
  · refine List.mem_filter.mpr ⟨hw, ?_⟩
    simp only [decide_eq_true_eq]
    intro hmem
    have h4 := (List.mem_filter.mp hmem).2
    rw [hok] at h4
    exact Bool.false_ne_true h4

/-- C8 witness: with subscribers 1 and 2 where only 2's send raises, 1 still
receives the event, 2 is removed, and 1 stays subscribed. -/
theorem C8_broadcast_isolamento_witness :
    1 ∈ (broadcast_heartbeat [1, 2] (fun w => w == 2)).1 ∧
    2 ∉ (broadcast_heartbeat [1, 2] (fun w => w == 2)).2 ∧
    1 ∈ (broadcast_heartbeat [1, 2] (fun w => w == 2)).2 :=
  C8_broadcast_isolamento [1, 2] (fun w => w == 2) 1 2
    (by decide) (by decide) (by decide)

/-- C9: the renewal sweep selects exactly the Active, auto-renew
subscriptions whose `data_fim` lies in `(now, now + 3 days]`, requests one
payment-pending alert per match, immediately renews each match, and each
renewal advances `data_fim` by exactly one billing cycle and cascades the
client's cached `data_expiracao` to the new end. -/
theorem C9_renovacao_sweep (now : Int) (assinaturas : List Assinatura)
    (clientes : Nat → Option Cliente) (a : Assinatura) (c : Cliente) :
    (∀ b, b ∈ (verificar_renovacoes now assinaturas).1 ↔
        b ∈ assinaturas ∧ b.status = "ativa" ∧ b.renovacaoAutomatica = true ∧
          now < b.dataFim ∧ b.dataFim ≤ now + 3 * day) ∧
    (verificar_renovacoes now assinaturas).2 =
      (verificar_renovacoes now assinaturas).1.map
        (fun b => Alerta.pagamentoPendente b.id) ∧
    (monitorar_renovacoes_assinaturas now assinaturas clientes).2 =
      (verificar_renovacoes now assinaturas).1.map
        (fun b => renovar_assinatura b (clientes b.clienteId)) ∧
    (renovar_assinatura a (some c)).1.dataFim
        = a.dataFim + cicloDias a.ciclo * day ∧
    (renovar_assinatura a (some c)).2 =
      some { c with
        dataExpiracao := some (a.dataFim + cicloDias a.ciclo * day) } := by
  refine ⟨?_, rfl, ?_, rfl, rfl⟩
  · intro b
    have hsel : (verificar_renovacoes now assinaturas).1
        = assinaturas.filter (assinaturaRenovavel now) := rfl
    rw [hsel, List.mem_filter, assinaturaRenovavel_eq_true]
  · show ((verificar_renovacoes now assinaturas).1.map fun b =>
        if b.renovacaoAutomatica
          then renovar_assinatura b (clientes b.clienteId)
          else (b, clientes b.clienteId))
      = (verificar_renovacoes now assinaturas).1.map
          (fun b => renovar_assinatura b (clientes b.clienteId))
    refine List.map_congr_left ?_
    intro b hb
    have hauto : b.renovacaoAutomatica = true :=
      ((assinaturaRenovavel_eq_true now b).mp
        (List.mem_filter.mp hb).2).2.1
    rw [if_pos hauto]

/-- C9 witness: a Monthly, Active, auto-renew subscription ending in 2 days
is selected at `now = 0`, and renewing it advances the end by 30 days. -/
theorem C9_renovacao_sweep_witness :
    assinBase ∈ (verificar_renovacoes 0 [assinBase]).1 ∧
    (renovar_assinatura assinBase
        (some { id := 1, dataExpiracao := none })).1.dataFim = 32 * day := by
  constructor
  · exact ((C9_renovacao_sweep 0 [assinBase] (fun _ => none) assinBase
        { id := 1, dataExpiracao := none }).1 assinBase).mpr
      ⟨by decide, by decide, by decide, by decide, by decide⟩
  · rw [(C9_renovacao_sweep 0 [assinBase] (fun _ => none) assinBase
        { id := 1, dataExpiracao := none }).2.2.2.1]
    decide

end Narcidi
